import Mathlib

/-!
# Verification of the dalicontrol lamp controller

A shallow embedding of the `dalicontrol` package (files `dali_controls.py`,
`dali_transport.py`, `lamp_state.py`, `ai_operator.py`, `main.py`) together
with proofs about its specification.  Python floats that only ever hold
percentages and timestamps are modelled as rationals (`ℚ`), machine integers
as `ℤ`/`ℕ`, and the stateful controller methods as pure functions returning
the new state together with the list of 16-bit DALI frames written to the
hardware.
-/

namespace DaliControl

/-- `clamp(v, lo, hi) = max(lo, min(hi, v))` from `dali_controls.py`, on rationals. -/
def clampQ (v lo hi : ℚ) : ℚ := max lo (min hi v)

/-- The same `clamp` on integers (used for arc levels and DTR bytes). -/
def clampZ (v lo hi : ℤ) : ℤ := max lo (min hi v)

/-- Python 3 `round` on an exact rational: round to the nearest integer,
ties to the even integer (banker's rounding). -/
def pyround (x : ℚ) : ℤ :=
  if x - ⌊x⌋ < 1/2 then ⌊x⌋
  else if 1/2 < x - ⌊x⌋ then ⌊x⌋ + 1
  else if ⌊x⌋ % 2 = 0 then ⌊x⌋ else ⌊x⌋ + 1

/-- `pct_to_level` from `dali_controls.py`:
`clamp(float(pct), 0.0, 100.0)` then `int(round((pct / 100.0) * 254))`. -/
def pct_to_level (pct : ℚ) : ℤ := pyround (clampQ pct 0 100 / 100 * 254)

/-! ## Basic lemmas about `clampQ` and `pyround` -/

theorem clampQ_nonneg (v hi : ℚ) : 0 ≤ clampQ v 0 hi := le_max_left 0 _

theorem clampQ_le (v hi : ℚ) (h : 0 ≤ hi) : clampQ v 0 hi ≤ hi :=
  max_le h (min_le_left hi v)

theorem clampQ_of_mem (v hi : ℚ) (h0 : 0 ≤ v) (h1 : v ≤ hi) : clampQ v 0 hi = v := by
  unfold clampQ
  rw [min_eq_right h1, max_eq_right h0]

theorem clampQ_idem (v hi : ℚ) (h : 0 ≤ hi) : clampQ (clampQ v 0 hi) 0 hi = clampQ v 0 hi :=
  clampQ_of_mem _ _ (clampQ_nonneg v hi) (clampQ_le v hi h)

theorem clampQ_mono (v w lo hi : ℚ) (h : v ≤ w) : clampQ v lo hi ≤ clampQ w lo hi :=
  max_le_max le_rfl (min_le_min le_rfl h)

theorem pyround_cases (x : ℚ) : pyround x = ⌊x⌋ ∨ pyround x = ⌊x⌋ + 1 := by
  unfold pyround
  split_ifs <;> simp

theorem floor_le_pyround (x : ℚ) : ⌊x⌋ ≤ pyround x := by
  rcases pyround_cases x with h | h <;> omega

theorem pyround_half_of_succ (x : ℚ) (h : pyround x = ⌊x⌋ + 1) : 1/2 ≤ x - ⌊x⌋ := by
  unfold pyround at h
  split_ifs at h with h1 h2 h3
  · omega
  · linarith
  · linarith
  · linarith

theorem pyround_ge_int (m : ℤ) (x : ℚ) (h : (m : ℚ) ≤ x) : m ≤ pyround x :=
  le_trans (Int.le_floor.mpr h) (floor_le_pyround x)

theorem pyround_le_int (m : ℤ) (x : ℚ) (h : x ≤ (m : ℚ)) : pyround x ≤ m := by
  have hfl : ⌊x⌋ ≤ m := by
    have := Int.floor_le_floor h
    simpa using this
  rcases pyround_cases x with hc | hc
  · omega
  · rcases lt_or_eq_of_le hfl with hlt | heq
    · omega
    · exfalso
      have hhalf := pyround_half_of_succ x hc
      have hxle : x ≤ (⌊x⌋ : ℚ) := by rw [heq]; exact h
      linarith

theorem pyround_le_floor_add_one (x : ℚ) : pyround x ≤ ⌊x⌋ + 1 := by
  rcases pyround_cases x with h | h <;> omega

theorem pyround_mono {x y : ℚ} (h : x ≤ y) : pyround x ≤ pyround y := by
  rcases lt_or_le ⌊x⌋ ⌊y⌋ with hf | hf
  · calc pyround x ≤ ⌊x⌋ + 1 := pyround_le_floor_add_one x
      _ ≤ ⌊y⌋ := by omega
      _ ≤ pyround y := floor_le_pyround y
  · have hf' : ⌊x⌋ = ⌊y⌋ := le_antisymm (Int.floor_le_floor h) hf
    unfold pyround
    rw [hf']
    split_ifs <;> first | omega | linarith

theorem pyround_eq_of_lt (x : ℚ) (n : ℤ) (h1 : ⌊x⌋ = n) (h2 : x - n < 1/2) :
    pyround x = n := by
  unfold pyround
  rw [h1, if_pos h2]

theorem pyround_eq_of_gt (x : ℚ) (n : ℤ) (h1 : ⌊x⌋ = n) (h2 : 1/2 < x - n) :
    pyround x = n + 1 := by
  unfold pyround
  rw [h1, if_neg (by linarith), if_pos h2]

theorem pyround_eq_of_half_even (x : ℚ) (n : ℤ) (h1 : ⌊x⌋ = n) (h2 : x - n = 1/2)
    (h3 : n % 2 = 0) : pyround x = n := by
  unfold pyround
  rw [h1, if_neg (by linarith), if_neg (by linarith), if_pos h3]

/-! ## Concrete conversion values used by the automation -/

theorem pct_to_level_zero : pct_to_level 0 = 0 := by
  unfold pct_to_level
  rw [clampQ_of_mem 0 100 le_rfl (by norm_num)]
  exact pyround_eq_of_lt _ 0 (by norm_num) (by norm_num)

theorem pct_to_level_ten : pct_to_level 10 = 25 := by
  unfold pct_to_level
  rw [clampQ_of_mem 10 100 (by norm_num) (by norm_num)]
  exact pyround_eq_of_lt _ 25 (by norm_num) (by norm_num)

theorem pct_to_level_fifty : pct_to_level 50 = 127 := by
  unfold pct_to_level
  rw [clampQ_of_mem 50 100 (by norm_num) (by norm_num)]
  exact pyround_eq_of_lt _ 127 (by norm_num) (by norm_num)

theorem pct_to_level_sixty : pct_to_level 60 = 152 := by
  unfold pct_to_level
  rw [clampQ_of_mem 60 100 (by norm_num) (by norm_num)]
  exact pyround_eq_of_lt _ 152 (by norm_num) (by norm_num)

theorem pct_to_level_seventyfive : pct_to_level 75 = 190 := by
  unfold pct_to_level
  rw [clampQ_of_mem 75 100 (by norm_num) (by norm_num)]
  exact pyround_eq_of_half_even _ 190 (by norm_num) (by norm_num) (by norm_num)

theorem pct_to_level_hundred : pct_to_level 100 = 254 := by
  unfold pct_to_level
  rw [clampQ_of_mem 100 100 (by norm_num) (by norm_num)]
  exact pyround_eq_of_lt _ 254 (by norm_num) (by norm_num)

/-! ## Lamp state model (`lamp_state.py`)

A 16-bit DALI command frame is the pair of bytes handed to
`DaliHidTransport.send_dali16`.  Each `LampController` method is embedded as a
pure function from the current `LampState` to the new state together with the
ordered list of frames it writes, in the order the Python method issues them. -/

/-- A 16-bit DALI frame: the two bytes passed to `send_dali16`. -/
abbrev Frame := ℤ × ℤ

/-- `WARM_PRESET = (0x10, 0x27)` ("yellow") from `lamp_state.py`. -/
def WARM_PRESET : ℤ × ℤ := (0x10, 0x27)

/-- `COOL_PRESET = (0x32, 0x00)` ("white") from `lamp_state.py`. -/
def COOL_PRESET : ℤ × ℤ := (0x32, 0x00)

/-- The `LampState` dataclass: last applied ARC level, last applied DT8
temperature pair, and the explicit off flag. -/
structure LampState where
  last_level : ℤ := 254
  last_temp : ℤ × ℤ := COOL_PRESET
  is_off : Bool := false
deriving DecidableEq

/-- `DaliControls.off`: a single broadcast-off frame. -/
def off_frames : List Frame := [(0xFF, 0x00)]

/-- `DaliControls.set_arc_level`: clamp to `[0, 254]`, one direct-arc-power frame. -/
def set_arc_level_frames (level : ℤ) : List Frame := [(0xFE, clampZ level 0 254)]

/-- `DaliControls.dt8_set_temp_raw`: the six-frame DT8 colour-temperature
sequence (write DTR, write DTR1, enable, set-temp, enable, activate). -/
def dt8_set_temp_raw_frames (dtr dtr1 : ℤ) : List Frame :=
  [(0xA3, dtr), (0xC3, dtr1), (0xC1, 0x08), (0xFF, 0xE7), (0xC1, 0x08), (0xFF, 0xE2)]

/-- `LampController.set_brightness_pct`: clamp the percentage, convert it with
the `round(pct / 100 * 254)` formula, write one arc frame, record the level and
derive `is_off` from `level == 0`. -/
def set_brightness_pct (s : LampState) (pct : ℚ) : LampState × List Frame :=
  let level := pct_to_level pct
  ({ s with last_level := level, is_off := decide (level = 0) },
    set_arc_level_frames level)

/-- `LampController.set_brightness_level`: clamp the level to `[0, 254]`,
write one arc frame, record the level and derive `is_off` from `level == 0`. -/
def set_brightness_level (s : LampState) (level : ℤ) : LampState × List Frame :=
  let l := clampZ level 0 254
  ({ s with last_level := l, is_off := decide (l = 0) }, set_arc_level_frames l)

/-- `LampController.set_white`: DT8 sequence for the cool preset. -/
def set_white (s : LampState) : LampState × List Frame :=
  ({ s with last_temp := COOL_PRESET },
    dt8_set_temp_raw_frames COOL_PRESET.1 COOL_PRESET.2)

/-- `LampController.set_yellow`: DT8 sequence for the warm preset. -/
def set_yellow (s : LampState) : LampState × List Frame :=
  ({ s with last_temp := WARM_PRESET },
    dt8_set_temp_raw_frames WARM_PRESET.1 WARM_PRESET.2)

/-- `LampController.set_temp_raw`: clamp both bytes to `[0, 255]`, then the
six-frame DT8 sequence, recording the clamped pair as `last_temp`. -/
def set_temp_raw (s : LampState) (dtr dtr1 : ℤ) : LampState × List Frame :=
  let d := clampZ dtr 0 255
  let d1 := clampZ dtr1 0 255
  ({ s with last_temp := (d, d1) }, dt8_set_temp_raw_frames d d1)

/-- `LampController.off`: one broadcast-off frame; only `is_off` changes. -/
def lamp_off (s : LampState) : LampState × List Frame :=
  ({ s with is_off := true }, off_frames)

/-- `LampController.on_last`: re-apply `last_temp` (six frames), then restore
`last_level` with one arc frame, substituting the default 127 when the
recorded level is 0; the restored level becomes the new `last_level` and
`is_off` is cleared at the end. -/
def on_last (s : LampState) : LampState × List Frame :=
  let level := if s.last_level = 0 then (127 : ℤ) else s.last_level
  ({ s with last_level := level, is_off := false },
    dt8_set_temp_raw_frames s.last_temp.1 s.last_temp.2 ++ set_arc_level_frames level)

/-! ## Transport pacer (`dali_transport.py`)

`DaliHidTransport` keeps a rolling counter; `_make_frame` builds the 64-byte
report payload and `send_dali16` writes it behind a leading report-id byte
(`b"\x00" + frame64`).  The counter state is passed explicitly. -/

/-- `DaliHidTransport._next_counter`: `(c + 1) & 0xFF`, skipping 0. -/
def next_counter (c : ℕ) : ℕ :=
  let c' := (c + 1) % 256
  if c' = 0 then 1 else c'

/-- `DaliHidTransport._make_frame`: the new counter value together with the
64-byte payload `[0x12, counter, 0x00, 0x03, 0x00, 0x00, b0 & 0xFF, b1 & 0xFF]`
followed by 56 zero bytes. -/
def make_frame (c b0 b1 : ℕ) : ℕ × List ℕ :=
  let c' := next_counter c
  (c', [0x12, c', 0x00, 0x03, 0x00, 0x00, b0 % 256, b1 % 256] ++ List.replicate 56 0)

/-- `DaliHidTransport.send_dali16`: the bytes written to the device handle,
a zero report-id byte followed by the 64-byte payload. -/
def send_packet (c b0 b1 : ℕ) : ℕ × List ℕ :=
  let r := make_frame c b0 b1
  (r.1, 0 :: r.2)

/-! ## Action executor (`ai_operator.py`)

`AIOperator._execute_action` receives a string action name and a parameter
dictionary.  The dictionary is embedded as an association list of rational
values; `params.get(key, default)` becomes `getParam`.  An execution result
records the new lamp state, the hardware frames written, whether the state was
persisted (`save_state`) and whether a rate-limit timestamp was appended to
`_action_times`.  The wall-clock side of the rate limiter is modelled
separately below (`run_rate`). -/

/-- An action request as the executor sees it: the `action` string plus the
remaining parameter entries. -/
structure ActionReq where
  name : String
  params : List (String × ℚ) := []
deriving DecidableEq

/-- `params.get(key, d)` on the embedded parameter dictionary. -/
def getParam (ps : List (String × ℚ)) (key : String) (d : ℚ) : ℚ :=
  match ps.lookup key with
  | some v => v
  | none => d

/-- `AIOperator._is_redundant`: the redundancy predicate evaluated against the
current `LampState`.  Only the four listed action names are ever redundant. -/
def is_redundant (s : LampState) (a : ActionReq) : Bool :=
  if a.name = ("set_white") then decide (s.last_temp = COOL_PRESET)
  else if a.name = ("set_yellow") then decide (s.last_temp = WARM_PRESET)
  else if a.name = ("off") then s.is_off
  else if a.name = ("set_brightness_pct") then
    decide (s.last_level = pct_to_level (getParam a.params ("pct") 0)) && !s.is_off
  else false

/-- The observable outcome of one `AIOperator._execute_action` call. -/
structure ExecResult where
  state : LampState
  frames : List Frame
  persisted : Bool
  stamped : Bool
deriving DecidableEq

/-- `AIOperator._execute_action`: skip redundant requests entirely, dispatch
the five supported names to the lamp controller (persisting the state and
recording a rate-limit timestamp afterwards), and treat any other name as a
logged no-op that returns before persistence. -/
def execute_action (s : LampState) (a : ActionReq) : ExecResult :=
  if is_redundant s a then ⟨s, [], false, false⟩
  else if a.name = ("set_brightness_pct") then
    let r := set_brightness_pct s (clampQ (getParam a.params ("pct") 0) 0 100)
    ⟨r.1, r.2, true, true⟩
  else if a.name = ("set_white") then
    let r := set_white s
    ⟨r.1, r.2, true, true⟩
  else if a.name = ("set_yellow") then
    let r := set_yellow s
    ⟨r.1, r.2, true, true⟩
  else if a.name = ("off") then
    let r := lamp_off s
    ⟨r.1, r.2, true, true⟩
  else if a.name = ("on_last") then
    let r := on_last s
    ⟨r.1, r.2, true, true⟩
  else ⟨s, [], false, false⟩

/-- The cumulative outcome of a sequence of `_execute_action` calls: final
state, all frames in order, and how many persistence writes and rate-limit
timestamps happened. -/
structure ExecTrace where
  state : LampState
  frames : List Frame
  persists : ℕ
  stamps : ℕ
deriving DecidableEq

/-- Run a list of action requests through `execute_action`, accumulating. -/
def execute_all (s : LampState) : List ActionReq → ExecTrace
  | [] => ⟨s, [], 0, 0⟩
  | a :: rest =>
    let r := execute_action s a
    let t := execute_all r.state rest
    ⟨t.state, r.frames ++ t.frames,
      (if r.persisted then 1 else 0) + t.persists,
      (if r.stamped then 1 else 0) + t.stamps⟩

/-! ## Rules-based text parser (`AIOperator._rules_plan` / `handle_user_text`)

Texts are embedded as lists of characters.  `_llm_plan` falls back to
`_rules_plan` whenever no OpenAI client is available; the embedding models
that rules path.  The regular expression `(\d{1,3})\s*%` is unfolded into an
explicit leftmost-match search. -/

/-- Python substring containment (`needle in hay`). -/
def containsTok (hay needle : List Char) : Bool :=
  hay.tails.any (fun suf => needle.isPrefixOf suf)

/-- The characters of the `\s` class of Python's `re` module (ASCII range). -/
def isPySpace (c : Char) : Bool :=
  c = ' ' || c = '\t' || c = '\n' || c = '\r' || c = '\x0b' || c = '\x0c'

/-- `int` on a digit string (the regex group never exceeds three digits). -/
def digitsToNat (ds : List Char) : ℕ :=
  ds.foldl (fun n c => 10 * n + (c.toNat - ('0').toNat)) 0

/-- One anchored attempt of the pattern `(\d{1,3})\s*%`: greedily take the
leading digits (a run longer than three digits can never complete a match at
this position), skip whitespace, and require a percent sign. -/
def pctTryAt (cs : List Char) : Option ℕ :=
  let ds := cs.takeWhile Char.isDigit
  if ds.length = 0 ∨ 3 < ds.length then none
  else
    match (cs.dropWhile Char.isDigit).dropWhile isPySpace with
    | '%' :: _ => some (digitsToNat ds)
    | _ => none

/-- `re.search(r"(\d{1,3})\s*%", text)`: the leftmost successful attempt. -/
def pctSearch : List Char → Option ℕ
  | [] => none
  | c :: rest =>
    match pctTryAt (c :: rest) with
    | some n => some n
    | none => pctSearch rest

/-- ASCII lowering of a text (Python `str.lower` on console input). -/
def lowerText (cs : List Char) : List Char := cs.map Char.toLower

/-- `AIOperator._rules_plan`: the rules fallback parser.  An empty result is
returned unchanged (the "do nothing" policy). -/
def rules_plan (text : List Char) : List ActionReq :=
  let lowered := lowerText text
  (if containsTok lowered (("off").toList) then [⟨("off"), []⟩] else []) ++
  (if containsTok lowered (("on").toList) || containsTok lowered (("turn on").toList) ||
      containsTok lowered (("restore").toList) || containsTok lowered (("resume").toList)
   then [⟨("on_last"), []⟩] else []) ++
  (if containsTok lowered (("warm").toList) || containsTok lowered (("yellow").toList)
   then [⟨("set_yellow"), []⟩]
   else if containsTok lowered (("cool").toList) || containsTok lowered (("white").toList)
   then [⟨("set_white"), []⟩]
   else []) ++
  (match pctSearch lowered with
   | some n => [⟨("set_brightness_pct"), [(("pct"), clampQ (n : ℚ) 0 100)]⟩]
   | none => [])

/-- Python `str.strip` (ASCII whitespace, both ends). -/
def stripText (cs : List Char) : List Char :=
  ((cs.dropWhile isPySpace).reverse.dropWhile isPySpace).reverse

/-- The sensor-question intercept of `handle_user_text`: a keyword plus either
a `can you` beginning or a trailing question mark.  It only prints. -/
def is_sensor_query (lowered : List Char) : Bool :=
  (containsTok lowered (("sensor").toList) || containsTok lowered (("occupancy").toList) ||
   containsTok lowered (("presence").toList) || containsTok lowered (("status").toList)) &&
  ((("can you").toList).isPrefixOf lowered || lowered.getLast? == some '?')

/-- `AIOperator.handle_user_text` on the rules path: intercept sensor
questions (no lamp effect), otherwise execute each parsed action in order. -/
def handle_user_text (s : LampState) (text : List Char) : ExecTrace :=
  let lowered := stripText (lowerText text)
  if is_sensor_query lowered then ⟨s, [], 0, 0⟩
  else execute_all s (rules_plan text)

/-! ## Rate limiter (`AIOperator._rate_limit`)

Wall-clock time is modelled as a rational number of seconds.  `run_rate`
processes a list of arrival times through the executor's rate gate: for each
action the loop wakes at `max clock arrival`, prunes `_action_times` to the
sliding 1-second window, sleeps `1.0 - (now - oldest)` when the window already
holds `MAX_ACTIONS_PER_SEC = 4` timestamps, executes, and appends the
post-sleep time to `_action_times`.  It returns the hardware-effect time of
every action; no action is ever dropped. -/

/-- `[t for t in self._action_times if now - t < 1.0]`. -/
def prune_window (times : List ℚ) (now : ℚ) : List ℚ :=
  times.filter (fun t => decide (now - t < 1))

/-- The sleep `_rate_limit` performs at time `now`: positive only when the
pruned window already holds at least four timestamps. -/
def rate_sleep (times : List ℚ) (now : ℚ) : ℚ :=
  let w := prune_window times now
  if 4 ≤ w.length then
    let s := 1 - (now - w.headD 0)
    if 0 < s then s else 0
  else 0

/-- Run a list of arrival times through the rate gate, returning each
action's hardware-effect time. -/
def run_rate (times : List ℚ) (clock : ℚ) : List ℚ → List ℚ
  | [] => []
  | a :: rest =>
    let now := max clock a
    let e := now + rate_sleep times now
    e :: run_rate (prune_window times now ++ [e]) e rest

theorem run_rate_length (times : List ℚ) (clock : ℚ) (arrivals : List ℚ) :
    (run_rate times clock arrivals).length = arrivals.length := by
  induction arrivals generalizing times clock with
  | nil => rfl
  | cons a rest ih => simpa [run_rate] using ih _ _

/-! ## Occupancy automation loop (`main.py`, `sensor_loop`)

One loop iteration at time `now` reads the filtered occupancy snapshot
(`None`, present or clear) and reacts: a present reading restores the light
(75%) on the clear-to-present edge or while a vacancy timer runs; a clear
reading dims to `DIM_LEVEL = 10`% on the present-to-clear edge and turns the
lamp off once the vacancy timer has run strictly longer than
`DIM_DELAY = 10` seconds. -/

/-- `DIM_DELAY = 10.0` seconds from `sensor_loop`. -/
def DIM_DELAY : ℚ := 10

/-- `DIM_LEVEL = 10` percent from `sensor_loop`. -/
def DIM_LEVEL : ℚ := 10

/-- The lamp actions a `sensor_loop` iteration can issue. -/
inductive AutoAct
  | restore
  | dim
  | lampOff
deriving DecidableEq

/-- The loop-local automation state: `last_filt`, `vacant_start` and the
shared lamp state. -/
structure OccState where
  last_filt : Option Bool
  vacant_start : Option ℚ
  lamp : LampState
deriving DecidableEq

/-- One iteration of `sensor_loop` at time `now` with filtered reading
`filt`.  `None` performs no transition.  The `if vacant_start` truthiness test
is `vacant_start is not None and vacant_start != 0.0`. -/
def occ_step (st : OccState) (now : ℚ) (filt : Option Bool) : OccState × List AutoAct :=
  match filt with
  | none => (st, [])
  | some true =>
    if st.last_filt ≠ some true ∨ st.vacant_start ≠ none then
      (⟨some true, none, (set_brightness_pct st.lamp 75).1⟩, [AutoAct.restore])
    else
      (⟨some true, none, st.lamp⟩, [])
  | some false =>
    let r :=
      if st.last_filt = some true then
        ((⟨some false, some now, (set_brightness_pct st.lamp DIM_LEVEL).1⟩ : OccState),
          [AutoAct.dim])
      else (st, [])
    match r.1.vacant_start with
    | some vs =>
      if vs ≠ 0 ∧ DIM_DELAY < now - vs then
        (⟨r.1.last_filt, none, (lamp_off r.1.lamp).1⟩, r.2 ++ [AutoAct.lampOff])
      else r
    | none => r

/-- Run `sensor_loop` iterations over a timed sequence of readings,
accumulating the issued actions. -/
def occ_run (st : OccState) : List (ℚ × Option Bool) → OccState × List AutoAct
  | [] => (st, [])
  | (t, f) :: rest =>
    let r := occ_step st t f
    let r2 := occ_run r.1 rest
    (r2.1, r.2 ++ r2.2)

/-! ## Generic clamp facts shared by the claims -/

theorem clampZ_of_mem (v lo hi : ℤ) (h0 : lo ≤ v) (h1 : v ≤ hi) : clampZ v lo hi = v := by
  unfold clampZ
  rw [min_eq_right h1, max_eq_right h0]

/-! ## Claim theorems -/

/-- Claim C5: `SetTempRaw(dtr, dtr1)` first clamps both arguments to
`[0, 255]` and then emits exactly the six frames
`(0xA3, dtr), (0xC3, dtr1), (0xC1, 0x08), (0xFF, 0xE7), (0xC1, 0x08),
(0xFF, 0xE2)` in this fixed order and no others. -/
theorem C5_set_temp_raw_frames (s : LampState) (dtr dtr1 : ℤ) :
    (set_temp_raw s dtr dtr1).2 =
      [(0xA3, clampZ dtr 0 255), (0xC3, clampZ dtr1 0 255),
       (0xC1, 0x08), (0xFF, 0xE7), (0xC1, 0x08), (0xFF, 0xE2)] ∧
    (set_temp_raw s dtr dtr1).1.last_temp = (clampZ dtr 0 255, clampZ dtr1 0 255) :=
  ⟨rfl, rfl⟩

/-- Claim C8: for every percentage the conversion `round(pct/100 * 254)` yields
a level in `[0, 254]`, is monotone non-decreasing, and inputs outside
`[0, 100]` are clamped to that range first. -/
theorem C8_pct_to_level_props (p q : ℚ) (hpq : p ≤ q) :
    0 ≤ pct_to_level p ∧ pct_to_level p ≤ 254 ∧
    pct_to_level p ≤ pct_to_level q ∧
    pct_to_level p = pct_to_level (clampQ p 0 100) := by
  have h0 : (0 : ℚ) ≤ clampQ p 0 100 := clampQ_nonneg p 100
  have h1 : clampQ p 0 100 ≤ 100 := clampQ_le p 100 (by norm_num)
  refine ⟨?_, ?_, ?_, ?_⟩
  · exact pyround_ge_int 0 _ (by push_cast; linarith)
  · exact pyround_le_int 254 _ (by push_cast; linarith)
  · have hc := clampQ_mono p q 0 100 hpq
    exact pyround_mono (by linarith)
  · unfold pct_to_level
    rw [clampQ_idem p 100 (by norm_num)]

/-- Witness for C8 at the concrete pair `pct = 30 ≤ 75`. -/
theorem C8_pct_to_level_witness :
    0 ≤ pct_to_level 30 ∧ pct_to_level 30 ≤ 254 ∧
    pct_to_level 30 ≤ pct_to_level 75 ∧
    pct_to_level 30 = pct_to_level (clampQ 30 0 100) :=
  C8_pct_to_level_props 30 75 (by norm_num)

/-- Claim C2: for every in-range `LampState`, `off` followed by `on_last`
first emits the six colour-temperature frames for the pre-off `last_temp` and
then one direct-arc-power frame restoring the pre-off `last_level` (127 when
the pre-off level was 0, which then becomes the new `last_level`); the
resulting state has `is_off = false` only at the end, and `off` itself changes
only `is_off`. -/
theorem C2_off_then_on_last (s : LampState)
    (hlo : 0 ≤ s.last_level) (hhi : s.last_level ≤ 254) :
    (lamp_off s).2 = [(0xFF, 0x00)] ∧
    (lamp_off s).1.last_level = s.last_level ∧
    (lamp_off s).1.last_temp = s.last_temp ∧
    (lamp_off s).1.is_off = true ∧
    (on_last (lamp_off s).1).2 =
      dt8_set_temp_raw_frames s.last_temp.1 s.last_temp.2 ++
        [(0xFE, if s.last_level = 0 then 127 else s.last_level)] ∧
    (on_last (lamp_off s).1).1.last_level =
      (if s.last_level = 0 then 127 else s.last_level) ∧
    (on_last (lamp_off s).1).1.last_temp = s.last_temp ∧
    (on_last (lamp_off s).1).1.is_off = false := by
  have hcl : clampZ (if s.last_level = 0 then 127 else s.last_level) 0 254 =
      (if s.last_level = 0 then (127 : ℤ) else s.last_level) := by
    by_cases hz : s.last_level = 0
    · rw [if_pos hz]
      exact clampZ_of_mem 127 0 254 (by omega) (by omega)
    · rw [if_neg hz]
      exact clampZ_of_mem _ 0 254 hlo hhi
  refine ⟨rfl, rfl, rfl, rfl, ?_, rfl, rfl, rfl⟩
  show dt8_set_temp_raw_frames s.last_temp.1 s.last_temp.2 ++
      set_arc_level_frames (if s.last_level = 0 then 127 else s.last_level) = _
  unfold set_arc_level_frames
  rw [hcl]

/-- Witness for C2 from the state `{last_level := 0, last_temp := warm,
is_off := false}`: the restore substitutes the default level 127. -/
theorem C2_off_then_on_last_witness :
    (lamp_off ⟨0, WARM_PRESET, false⟩).2 = [(0xFF, 0x00)] ∧
    (on_last (lamp_off ⟨0, WARM_PRESET, false⟩).1).2 =
      dt8_set_temp_raw_frames 0x10 0x27 ++ [(0xFE, 127)] ∧
    (on_last (lamp_off ⟨0, WARM_PRESET, false⟩).1).1.last_level = 127 ∧
    (on_last (lamp_off ⟨0, WARM_PRESET, false⟩).1).1.is_off = false := by
  have h := C2_off_then_on_last ⟨0, WARM_PRESET, false⟩ (by norm_num) (by norm_num)
  obtain ⟨h1, -, -, -, h5, h6, -, h8⟩ := h
  refine ⟨h1, ?_, ?_, h8⟩
  · simpa [WARM_PRESET] using h5
  · simpa using h6

/-- Counterexample to claim C7 as stated: setting brightness to level 0 does
mark the lamp as off (`is_off` is re-derived as `level == 0` by
`set_brightness_pct`). -/
theorem C7_counterexample :
    (set_brightness_pct ⟨254, COOL_PRESET, false⟩ 0).1.is_off = true := by
  simp [set_brightness_pct, pct_to_level_zero]

/-- Claim C7 as amended: `is_off` is an explicit stored field — a state with
`last_level = 0` and `is_off = false` is representable, distinguishable from
the explicit off state, and preserved by temperature-only operations — but the
brightness operations re-derive it from the written level, so setting
brightness to level 0 does by itself mark the lamp as off. -/
theorem C7_is_off_amended (s : LampState) (t : ℤ × ℤ) (pct : ℚ) :
    (LampState.mk 0 t false ≠ LampState.mk 0 t true) ∧
    (set_white ⟨0, t, false⟩).1.last_level = 0 ∧
    (set_white ⟨0, t, false⟩).1.is_off = false ∧
    (set_brightness_pct s pct).1.is_off = decide (pct_to_level pct = 0) :=
  ⟨by simp, rfl, rfl, rfl⟩

/-- Counterexample to claim C6 as stated: the byte at payload offset 3 — the
second of the claimed "two reserved zero bytes" — is `0x03`, not zero. -/
theorem C6_counterexample : (make_frame 1 0xFE 127).2.getD 3 0 ≠ 0 := by decide

/-- Claim C6 as amended: every packet is a leading zero report-id byte
followed by the 64-byte payload `[0x12 marker, rolling counter, one reserved
zero byte, the fixed byte 0x03, two more reserved zero bytes, opcode, data]`
with the remaining bytes zero, and the counter written in every frame (which
is incremented before the frame is built) lies in `1..255`, skipping 0. -/
theorem C6_packet_amended (c b0 b1 : ℕ) :
    (send_packet c b0 b1).2 = 0 :: (make_frame c b0 b1).2 ∧
    (make_frame c b0 b1).2.length = 64 ∧
    (make_frame c b0 b1).2 =
      [0x12, next_counter c, 0x00, 0x03, 0x00, 0x00, b0 % 256, b1 % 256] ++
        List.replicate 56 0 ∧
    (make_frame c b0 b1).1 = next_counter c ∧
    1 ≤ next_counter c ∧ next_counter c ≤ 255 := by
  refine ⟨rfl, rfl, rfl, rfl, ?_, ?_⟩
  · unfold next_counter
    have h := Nat.mod_lt (c + 1) (show 0 < 256 by norm_num)
    dsimp only
    split_ifs with hz <;> omega
  · unfold next_counter
    have h := Nat.mod_lt (c + 1) (show 0 < 256 by norm_num)
    dsimp only
    split_ifs with hz <;> omega

/-- Claim C9: an action request whose kind is not one of the five supported
names is a no-op for the executor: no frame, unchanged state, no persistence,
no rate-limit timestamp, and no error. -/
theorem C9_unknown_action_noop (s : LampState) (a : ActionReq)
    (h : a.name ∉ [("set_brightness_pct" : String), ("set_white"), ("set_yellow"),
      ("off"), ("on_last")]) :
    execute_action s a = ⟨s, [], false, false⟩ := by
  simp only [List.mem_cons, List.not_mem_nil, or_false, not_or] at h
  obtain ⟨h1, h2, h3, h4, h5⟩ := h
  unfold execute_action is_redundant
  simp [h1, h2, h3, h4, h5]

/-- Witness for C9 at the unsupported kind `recall_max`. -/
theorem C9_unknown_action_witness :
    execute_action ⟨254, COOL_PRESET, false⟩ ⟨("recall_max"), []⟩ =
      ⟨⟨254, COOL_PRESET, false⟩, [], false, false⟩ :=
  C9_unknown_action_noop _ _ (by decide)

/-- The computed clamped level of a brightness request, as claim C1 words it:
the percentage conversion for `set_brightness_pct`, the `[0, 254]` clamp of
the `level` parameter for `set_brightness_level`.  This definition follows the
claim's words (not the code) so the code's behaviour can be compared to it. -/
def claim_level (a : ActionReq) : ℤ :=
  if a.name = ("set_brightness_pct") then pct_to_level (getParam a.params ("pct") 0)
  else clampZ ⌊getParam a.params ("level") 0⌋ 0 254

/-- The redundancy condition exactly as claim C1 states it, covering both
`set_brightness_pct` and `set_brightness_level`.  This definition follows the
claim's words (not the code). -/
def claimC1_redundant (s : LampState) (a : ActionReq) : Prop :=
  (a.name = ("set_white") ∧ s.last_temp = COOL_PRESET) ∨
  (a.name = ("set_yellow") ∧ s.last_temp = WARM_PRESET) ∨
  (a.name = ("off") ∧ s.is_off = true) ∨
  ((a.name = ("set_brightness_pct") ∨ a.name = ("set_brightness_level")) ∧
    s.last_level = claim_level a ∧ s.is_off = false)

/-- Counterexample to claim C1 as stated: a `set_brightness_level` request
whose computed clamped level (100) differs from `last_level` (254) is not
redundant by the claim's condition, yet the executor skips it entirely —
`set_brightness_level` is not a supported executor action. -/
theorem C1_counterexample :
    ¬ ((execute_action ⟨254, COOL_PRESET, false⟩
          ⟨("set_brightness_level"), [(("level"), 100)]⟩ =
        ⟨⟨254, COOL_PRESET, false⟩, [], false, false⟩) ↔
      claimC1_redundant ⟨254, COOL_PRESET, false⟩
        ⟨("set_brightness_level"), [(("level"), 100)]⟩) := by
  intro hiff
  have hskip : execute_action ⟨254, COOL_PRESET, false⟩
      ⟨("set_brightness_level"), [(("level"), 100)]⟩ =
      ⟨⟨254, COOL_PRESET, false⟩, [], false, false⟩ := by
    unfold execute_action is_redundant
    simp
  have hlevel : claim_level ⟨("set_brightness_level"), [(("level"), 100)]⟩ = 100 := by
    unfold claim_level getParam
    rw [if_neg (by decide)]
    have hfl : ⌊(100 : ℚ)⌋ = 100 := by norm_num
    simp only [List.lookup]
    norm_num [hfl]
    unfold clampZ
    omega
  have hred := hiff.mp hskip
  rcases hred with ⟨hn, -⟩ | ⟨hn, -⟩ | ⟨hn, -⟩ | ⟨-, hlvl, -⟩
  · exact absurd hn (by decide)
  · exact absurd hn (by decide)
  · exact absurd hn (by decide)
  · rw [hlevel] at hlvl
    exact absurd hlvl (by decide)

/-- Claim C1 as amended: the executor skips a request entirely (no frame, no
persistence, no rate-limit timestamp, unchanged state) exactly when it is
redundant — `set_white`/`set_yellow` iff `last_temp` already equals the
cool/warm preset, `off` iff `is_off` is already true, `set_brightness_pct` iff
the computed clamped level equals `last_level` and `is_off` is false — or its
kind is not one of the five supported names (in particular
`set_brightness_level` is always skipped as an unknown no-op); consequently
two consecutive `set_white` requests from a state whose `last_temp` is not the
cool preset produce exactly one six-frame sequence and one persistence. -/
theorem C1_redundancy_amended (s : LampState) (a : ActionReq) :
    (execute_action s a = ⟨s, [], false, false⟩ ↔
      ((a.name = ("set_white") ∧ s.last_temp = COOL_PRESET) ∨
       (a.name = ("set_yellow") ∧ s.last_temp = WARM_PRESET) ∨
       (a.name = ("off") ∧ s.is_off = true) ∨
       (a.name = ("set_brightness_pct") ∧
         s.last_level = pct_to_level (getParam a.params ("pct") 0) ∧ s.is_off = false) ∨
       ¬(a.name = ("set_brightness_pct") ∨ a.name = ("set_white") ∨
         a.name = ("set_yellow") ∨ a.name = ("off") ∨ a.name = ("on_last")))) ∧
    (s.last_temp ≠ COOL_PRESET →
      (execute_all s [⟨("set_white"), []⟩, ⟨("set_white"), []⟩]).frames =
        dt8_set_temp_raw_frames 0x32 0x00 ∧
      (execute_all s [⟨("set_white"), []⟩, ⟨("set_white"), []⟩]).persists = 1) := by
  constructor
  · by_cases h1 : a.name = ("set_brightness_pct")
    · by_cases hl : s.last_level = pct_to_level (getParam a.params ("pct") 0)
      · by_cases ho : s.is_off = true
        · simp [execute_action, is_redundant, h1, hl, ho]
        · simp [execute_action, is_redundant, h1, hl, ho]
      · simp [execute_action, is_redundant, h1, hl]
    · by_cases h2 : a.name = ("set_white")
      · by_cases hc : s.last_temp = COOL_PRESET
        · simp [execute_action, is_redundant, h1, h2, hc]
        · simp [execute_action, is_redundant, h1, h2, hc]
      · by_cases h3 : a.name = ("set_yellow")
        · by_cases hw : s.last_temp = WARM_PRESET
          · simp [execute_action, is_redundant, h1, h2, h3, hw]
          · simp [execute_action, is_redundant, h1, h2, h3, hw]
        · by_cases h4 : a.name = ("off")
          · by_cases ho : s.is_off = true
            · simp [execute_action, is_redundant, h1, h2, h3, h4, ho]
            · simp [execute_action, is_redundant, h1, h2, h3, h4, ho]
          · by_cases h5 : a.name = ("on_last")
            · simp [execute_action, is_redundant, h1, h2, h3, h4, h5]
            · simp [execute_action, is_redundant, h1, h2, h3, h4, h5]
  · intro hne
    have e1 : execute_action s ⟨("set_white"), []⟩ =
        ⟨(set_white s).1, (set_white s).2, true, true⟩ := by
      unfold execute_action is_redundant
      simp [hne]
    have e2 : execute_action (set_white s).1 ⟨("set_white"), []⟩ =
        ⟨(set_white s).1, [], false, false⟩ := by
      unfold execute_action is_redundant
      simp [set_white]
    constructor
    · simp only [execute_all, e1, e2]
      simp [set_white, COOL_PRESET]
    · simp only [execute_all, e1, e2]
      simp

/-- Claim C10: when the rules parser produces an empty action list,
`handle_user_text` performs no hardware writes, leaves `LampState` unchanged
and persists nothing — the "empty plan means do nothing" policy. -/
theorem C10_empty_plan_noop (s : LampState) (text : List Char)
    (h : rules_plan text = []) :
    handle_user_text s text = ⟨s, [], 0, 0⟩ := by
  unfold handle_user_text
  dsimp only
  split_ifs with hq
  · rfl
  · rw [h]
    rfl

/-- Witness for C10 at the concrete input text `hello there`. -/
theorem C10_empty_plan_witness :
    handle_user_text ⟨254, COOL_PRESET, false⟩ (("hello there").toList) =
      ⟨⟨254, COOL_PRESET, false⟩, [], 0, 0⟩ :=
  C10_empty_plan_noop _ _ (by decide)

/-! ## Rate-limiter lemmas for claim C4 -/

theorem run_rate_cons (times : List ℚ) (clock a : ℚ) (rest : List ℚ) :
    run_rate times clock (a :: rest) =
      (max clock a + rate_sleep times (max clock a)) ::
        run_rate (prune_window times (max clock a) ++
            [max clock a + rate_sleep times (max clock a)])
          (max clock a + rate_sleep times (max clock a)) rest := rfl

theorem prune_window_all (times : List ℚ) (now : ℚ) (h : ∀ t ∈ times, now - t < 1) :
    prune_window times now = times :=
  List.filter_eq_self.mpr fun t ht => decide_eq_true (h t ht)

theorem rate_sleep_short (times : List ℚ) (now : ℚ)
    (h : (prune_window times now).length < 4) : rate_sleep times now = 0 := by
  unfold rate_sleep
  rw [if_neg (by omega)]

/-- Claim C4: the executor's sliding 1-second window admits at most
`MAX_ACTIONS_PER_SEC = 4` actions; five non-redundant requests arriving within
100 ms all execute (none is dropped) and the fifth hardware effect happens
exactly one second after the first.  Arrival times are rational seconds. -/
theorem C4_rate_limit_five (t1 t2 t3 t4 t5 : ℚ)
    (h12 : t1 ≤ t2) (h23 : t2 ≤ t3) (h34 : t3 ≤ t4) (h45 : t4 ≤ t5)
    (hspan : t5 - t1 ≤ 1/10) :
    run_rate [] t1 [t1, t2, t3, t4, t5] = [t1, t2, t3, t4, t1 + 1] ∧
    (run_rate [] t1 [t1, t2, t3, t4, t5]).length = 5 ∧
    (run_rate [] t1 [t1, t2, t3, t4, t5]).headD 0 + 1 ≤
      (run_rate [] t1 [t1, t2, t3, t4, t5]).getLastD 0 := by
  have hmain : run_rate [] t1 [t1, t2, t3, t4, t5] = [t1, t2, t3, t4, t1 + 1] := by
    have hm1 : max t1 t1 = t1 := max_self t1
    have hp1 : prune_window ([] : List ℚ) t1 = [] := rfl
    have hs1 : rate_sleep [] t1 = 0 := rate_sleep_short _ _ (by rw [hp1]; norm_num)
    rw [run_rate_cons, hm1, hs1, add_zero, hp1, List.nil_append]
    have hm2 : max t1 t2 = t2 := max_eq_right h12
    have hp2 : prune_window [t1] t2 = [t1] := by
      apply prune_window_all
      intro t ht
      simp only [List.mem_singleton] at ht
      subst ht
      linarith
    have hs2 : rate_sleep [t1] t2 = 0 := rate_sleep_short _ _ (by rw [hp2]; norm_num)
    rw [run_rate_cons, hm2, hs2, add_zero, hp2]
    simp only [List.cons_append, List.nil_append]
    have hm3 : max t2 t3 = t3 := max_eq_right h23
    have hp3 : prune_window [t1, t2] t3 = [t1, t2] := by
      apply prune_window_all
      intro t ht
      simp only [List.mem_cons, List.mem_singleton] at ht
      rcases ht with rfl | rfl | h
      · linarith
      · linarith
      · exact absurd h (List.not_mem_nil t)
    have hs3 : rate_sleep [t1, t2] t3 = 0 := rate_sleep_short _ _ (by rw [hp3]; norm_num)
    rw [run_rate_cons, hm3, hs3, add_zero, hp3]
    simp only [List.cons_append, List.nil_append]
    have hm4 : max t3 t4 = t4 := max_eq_right h34
    have hp4 : prune_window [t1, t2, t3] t4 = [t1, t2, t3] := by
      apply prune_window_all
      intro t ht
      simp only [List.mem_cons, List.mem_singleton] at ht
      rcases ht with rfl | rfl | rfl | h
      · linarith
      · linarith
      · linarith
      · exact absurd h (List.not_mem_nil t)
    have hs4 : rate_sleep [t1, t2, t3] t4 = 0 := rate_sleep_short _ _ (by rw [hp4]; norm_num)
    rw [run_rate_cons, hm4, hs4, add_zero, hp4]
    simp only [List.cons_append, List.nil_append]
    have hm5 : max t4 t5 = t5 := max_eq_right h45
    have hp5 : prune_window [t1, t2, t3, t4] t5 = [t1, t2, t3, t4] := by
      apply prune_window_all
      intro t ht
      simp only [List.mem_cons, List.mem_singleton] at ht
      rcases ht with rfl | rfl | rfl | rfl | h
      · linarith
      · linarith
      · linarith
      · linarith
      · exact absurd h (List.not_mem_nil t)
    have hs5 : rate_sleep [t1, t2, t3, t4] t5 = 1 - (t5 - t1) := by
      unfold rate_sleep
      rw [hp5]
      rw [if_pos (by norm_num)]
      dsimp only [List.headD]
      rw [if_pos (by linarith)]
    rw [run_rate_cons, hm5, hs5, hp5]
    have he5 : t5 + (1 - (t5 - t1)) = t1 + 1 := by ring
    rw [he5, run_rate]
  refine ⟨hmain, by rw [hmain]; rfl, ?_⟩
  rw [hmain]
  simp [List.getLastD]

/-- Witness for C4 with all five arrivals at time 0. -/
theorem C4_rate_limit_witness :
    run_rate [] 0 [0, 0, 0, 0, 0] = [0, 0, 0, 0, 0 + 1] ∧
    (run_rate [] 0 [0, 0, 0, 0, 0]).length = 5 ∧
    (run_rate [] 0 [0, 0, 0, 0, 0]).headD 0 + 1 ≤
      (run_rate [] 0 [0, 0, 0, 0, 0]).getLastD 0 :=
  C4_rate_limit_five 0 0 0 0 0 le_rfl le_rfl le_rfl le_rfl (by norm_num)

/-! ## Occupancy-loop lemmas for claim C3 -/

theorem occ_run_append (st : OccState) (xs ys : List (ℚ × Option Bool)) :
    occ_run st (xs ++ ys) =
      ((occ_run (occ_run st xs).1 ys).1,
        (occ_run st xs).2 ++ (occ_run (occ_run st xs).1 ys).2) := by
  induction xs generalizing st with
  | nil => simp [occ_run]
  | cons x rest ih =>
    obtain ⟨t, f⟩ := x
    simp [occ_run, ih]

theorem occ_step_idle (L : LampState) (t : ℚ) :
    occ_step ⟨some false, none, L⟩ t (some false) = (⟨some false, none, L⟩, []) := by
  simp [occ_step]

theorem occ_run_idle (L : LampState) (ts : List ℚ) :
    occ_run ⟨some false, none, L⟩ (ts.map (fun t => (t, some false))) =
      (⟨some false, none, L⟩, []) := by
  induction ts with
  | nil => rfl
  | cons t rest ih => simp [occ_run, occ_step_idle, ih]

theorem occ_step_present_start :
    occ_step ⟨none, none, ⟨254, COOL_PRESET, false⟩⟩ 0 (some true) =
      (⟨some true, none, ⟨190, COOL_PRESET, false⟩⟩, [AutoAct.restore]) := by
  unfold occ_step
  rw [if_pos (Or.inl (by simp))]
  simp [set_brightness_pct, pct_to_level_seventyfive]

theorem occ_step_clear_edge :
    occ_step ⟨some true, none, ⟨190, COOL_PRESET, false⟩⟩ 1 (some false) =
      (⟨some false, some 1, ⟨25, COOL_PRESET, false⟩⟩, [AutoAct.dim]) := by
  norm_num [occ_step, DIM_LEVEL, DIM_DELAY, set_brightness_pct, pct_to_level_ten]

theorem occ_step_tick_at_ten :
    occ_step ⟨some false, some 1, ⟨25, COOL_PRESET, false⟩⟩ 10 (some false) =
      (⟨some false, some 1, ⟨25, COOL_PRESET, false⟩⟩, []) := by
  norm_num [occ_step, DIM_DELAY]

theorem occ_step_tick_at_eleven :
    occ_step ⟨some false, some 1, ⟨25, COOL_PRESET, false⟩⟩ 11 (some false) =
      (⟨some false, some 1, ⟨25, COOL_PRESET, false⟩⟩, []) := by
  norm_num [occ_step, DIM_DELAY]

theorem occ_step_tick_at_twelve :
    occ_step ⟨some false, some 1, ⟨25, COOL_PRESET, false⟩⟩ 12 (some false) =
      (⟨some false, none, ⟨25, COOL_PRESET, true⟩⟩, [AutoAct.lampOff]) := by
  norm_num [occ_step, DIM_DELAY, lamp_off]

/-- Counterexample to claim C3 as stated: after presence at `t = 0` and a
clear edge at `t = 1`, a tick at `t = 11` — elapsed time exactly
`DIM_DELAY`, so "at least dim_delay" holds — does not turn the lamp off: the
code requires the elapsed time to strictly exceed the delay. -/
theorem C3_counterexample :
    (occ_run ⟨none, none, ⟨254, COOL_PRESET, false⟩⟩
        [(0, some true), (1, some false), (11, some false)]).1.lamp.is_off = false ∧
    DIM_DELAY ≤ 11 - 1 := by
  constructor
  · simp [occ_run, occ_step_present_start, occ_step_clear_edge, occ_step_tick_at_eleven]
  · norm_num [DIM_DELAY]

/-- Claim C3 as amended: a presence-cleared reading while occupied dims the
lamp and starts the vacancy timer, and a later tick turns the lamp off exactly
once when and only when the elapsed time since vacancy start strictly exceeds
`DIM_DELAY`: with presence at 0 and clear at 1, a tick at `1 + DIM_DELAY - 1`
leaves the lamp dimmed (level 25) and not off, a tick at `1 + DIM_DELAY + 1`
turns it off exactly once, and any further clear ticks issue no more off
actions until presence is detected again. -/
theorem C3_occupancy_amended (ts : List ℚ) :
    (∀ (st : OccState) (now : ℚ), st.last_filt = some true →
      occ_step st now (some false) =
        (⟨some false, some now, (set_brightness_pct st.lamp DIM_LEVEL).1⟩,
          [AutoAct.dim])) ∧
    (occ_run ⟨none, none, ⟨254, COOL_PRESET, false⟩⟩
        [(0, some true), (1, some false), (10, some false)]).2 =
      [AutoAct.restore, AutoAct.dim] ∧
    (occ_run ⟨none, none, ⟨254, COOL_PRESET, false⟩⟩
        [(0, some true), (1, some false), (10, some false)]).1.lamp.last_level = 25 ∧
    (occ_run ⟨none, none, ⟨254, COOL_PRESET, false⟩⟩
        [(0, some true), (1, some false), (10, some false)]).1.lamp.is_off = false ∧
    (occ_run ⟨none, none, ⟨254, COOL_PRESET, false⟩⟩
        [(0, some true), (1, some false), (10, some false), (12, some false)]).2 =
      [AutoAct.restore, AutoAct.dim, AutoAct.lampOff] ∧
    (occ_run ⟨none, none, ⟨254, COOL_PRESET, false⟩⟩
        [(0, some true), (1, some false), (10, some false), (12, some false)]).1.lamp.is_off =
      true ∧
    (occ_run ⟨none, none, ⟨254, COOL_PRESET, false⟩⟩
        ([(0, some true), (1, some false), (10, some false), (12, some false)] ++
          ts.map (fun t => (t, some false)))).2 =
      [AutoAct.restore, AutoAct.dim, AutoAct.lampOff] := by
  refine ⟨?_, ?_, ?_, ?_, ?_, ?_, ?_⟩
  · intro st now h
    norm_num [occ_step, h, DIM_DELAY]
  · simp [occ_run, occ_step_present_start, occ_step_clear_edge, occ_step_tick_at_ten]
  · simp [occ_run, occ_step_present_start, occ_step_clear_edge, occ_step_tick_at_ten]
  · simp [occ_run, occ_step_present_start, occ_step_clear_edge, occ_step_tick_at_ten]
  · simp [occ_run, occ_step_present_start, occ_step_clear_edge, occ_step_tick_at_ten,
      occ_step_tick_at_twelve]
  · simp [occ_run, occ_step_present_start, occ_step_clear_edge, occ_step_tick_at_ten,
      occ_step_tick_at_twelve]
  · rw [occ_run_append]
    have hbase : occ_run ⟨none, none, ⟨254, COOL_PRESET, false⟩⟩
        [(0, some true), (1, some false), (10, some false), (12, some false)] =
        (⟨some false, none, ⟨25, COOL_PRESET, true⟩⟩,
          [AutoAct.restore, AutoAct.dim, AutoAct.lampOff]) := by
      simp [occ_run, occ_step_present_start, occ_step_clear_edge, occ_step_tick_at_ten,
        occ_step_tick_at_twelve]
    rw [hbase, occ_run_idle]
    simp

end DaliControl
